import Mathlib

/-!
Shallow embedding of `nn3.py` (Project-1837): a minimal text game loop with a
pluggable module system.  Python exceptions are modelled by `PyErr` threaded
through `Except` (for pure operations) or an explicit `Option PyErr` component
(for the engine tick loop, which must keep the output printed before a raise).
Python attribute lookup failures are derived from per-class inventories of the
attribute names its instances actually carry, read off the class bodies.
-/

/-- Python exceptions that the program can raise. -/
inductive PyErr where
  | typeError (msg : String)
  | attributeError (obj attr : String)
  | indexError
  | eofError
  deriving DecidableEq

/-- CPython rendering of the exceptions above, as interpolated by
`print(f"An error occurred: {message}")` in `GameEngine.handle_error`. -/
def pyErrStr : PyErr → String
  | PyErr.typeError msg => msg
  | PyErr.attributeError obj attr =>
      "'" ++ obj ++ "' object has no attribute '" ++ attr ++ "'"
  | PyErr.indexError => "list index out of range"
  | PyErr.eofError => "EOF when reading a line"

/-- Python `str.strip()` (whitespace at both ends). -/
def pyStrip (s : String) : String := s.trim

/-- Python `str.lower()`. -/
def pyLower (s : String) : String := s.toLower

/-- Python list read `l[i]`: a non-negative index counts from the front, a
negative one from the back (`l[i]` is `l[i + len(l)]`); anything still out of
range raises `IndexError`. -/
def pyGet {α : Type} (l : List α) (i : Int) : Except PyErr α :=
  let j : Int := if i < 0 then i + l.length else i
  if 0 ≤ j then
    match l.get? j.toNat with
    | some a => Except.ok a
    | none => Except.error PyErr.indexError
  else Except.error PyErr.indexError

/-- Python list write `l[i] = a`, with the same index arithmetic as `pyGet`. -/
def pySet {α : Type} (l : List α) (i : Int) (a : α) : Except PyErr (List α) :=
  let j : Int := if i < 0 then i + l.length else i
  if 0 ≤ j ∧ j.toNat < l.length then Except.ok (l.set j.toNat a)
  else Except.error PyErr.indexError

/-- The index Python actually addresses for an in-range access on a list of
length `len`: negative indices count from the opposite edge. -/
def pyWrap (len : Nat) (i : Int) : Int := if i < 0 then i + len else i

/-- `Piece.__init__` stores the name and the description together inside the
single instance attribute `attributes` (a dict with exactly these two keys);
it creates no separate `name` or `description` attribute. -/
structure PieceAttributes where
  name : String
  description : String
  deriving DecidableEq

/-- `RoomPiece`: a `Piece` whose constructor just forwards name/description;
its whole instance state is the inherited `attributes` dict. -/
structure RoomPiece where
  attributes : PieceAttributes
  deriving DecidableEq

/-- Attribute names available on a `RoomPiece` instance: the instance
attribute `attributes` set in `Piece.__init__`, and the methods
`describe_room` and `update` of class `RoomPiece` (plus `Piece.update`,
already listed).  In particular `name` is NOT among them: `Piece.__init__`
stores the name inside the `attributes` dict only. -/
def RoomPiece.instanceAttrNames : List String := ["attributes", "describe_room", "update"]

/-- `Command.__init__` sets only `trigger` (it never calls
`super().__init__`, so no `attributes` dict exists on a `Command`). -/
structure Command where
  trigger : String
  deriving DecidableEq

/-- Attribute names available on a `Command` instance: the instance attribute
`trigger` from `Command.__init__`, and the methods `validate` and `update`
of class `Command`.  No class in the hierarchy defines `execute` on
commands (`Command` extends `Piece`, not `Module`). -/
def Command.instanceAttrNames : List String := ["trigger", "validate", "update"]

/-- `Command.validate`: compares the normalized input with the trigger.
(Defined in the source but never called by the dispatch path.) -/
def Command.validate (c : Command) (user_input : String) : Bool :=
  pyLower (pyStrip user_input) == c.trigger

/-- `QuitCommand("quit")`: the concrete command wired by `main`.  Its effect
lives in its `update` method (modelled by `QuitCommand.update` below). -/
def quitCommand : Command := { trigger := "quit" }

/-- `InputMapModule`: owns the trigger-to-command dictionary `commands`. -/
structure InputMapModule where
  commands : List (String × Command)
  deriving DecidableEq

/-- Attribute names available on an `InputMapModule` instance: `commands`
from `__init__`, and the methods `add_command`, `process_command`, `execute`.
`handle_input` is defined nowhere in the class. -/
def InputMapModule.instanceAttrNames : List String :=
  ["commands", "add_command", "process_command", "execute"]

/-- Python dict insertion `d[k] = v`: overwrite in place if the key exists,
otherwise append at the end (dicts keep insertion order). -/
def dictInsert (d : List (String × Command)) (k : String) (v : Command) :
    List (String × Command) :=
  if d.any (fun p => p.1 == k) then
    d.map (fun p => if p.1 == k then (k, v) else p)
  else d ++ [(k, v)]

/-- Python `d.get(k)`: the value under `k`, or `None`. -/
def dictGet (d : List (String × Command)) (k : String) : Option Command :=
  List.lookup k d

/-- `InputMapModule.process_command`: looks the input up in `commands`; on a
hit it runs `command.execute()` — but no command class defines `execute`
(see `Command.instanceAttrNames`), so the attribute lookup raises; on a miss
it prints the "cannot be understood" message.  Result: printed lines paired
with the exception, if one was raised. -/
def InputMapModule.process_command (im : InputMapModule) (user_input : String) :
    List String × Option PyErr :=
  match dictGet im.commands user_input with
  | some _command =>
      if Command.instanceAttrNames.contains "execute" then
        ([], none)
      else
        ([], some (PyErr.attributeError "Command" "execute"))
  | none => (["This command cannot be understood."], none)

/-- `InputMapModule.execute`, applied to the line read from the console:
prints the prompt, normalizes the line with strip+lower, then calls
`self.handle_input(user_input)` — an attribute that no class defines (see
`InputMapModule.instanceAttrNames`), so the call raises before any dispatch.
(If `handle_input` existed the intended dispatch would be
`process_command`.) -/
def InputMapModule.executeLine (im : InputMapModule) (line : String) :
    List String × Option PyErr :=
  let user_input := pyLower (pyStrip line)
  if InputMapModule.instanceAttrNames.contains "handle_input" then
    let r := im.process_command user_input
    ([">: "] ++ r.1, r.2)
  else
    ([">: "], some (PyErr.attributeError "InputMapModule" "handle_input"))

/-- `MapGridModule.Vector`: a pair of optional integer coordinates. -/
structure MapGridModule.Vector where
  x : Option Int
  y : Option Int
  deriving DecidableEq

/-- `Vector.is_valid`: both coordinates are present; no bounds check. -/
def MapGridModule.Vector.is_valid (v : MapGridModule.Vector) : Bool :=
  v.x.isSome && v.y.isSome

/-- `MapGridModule`: `size_vector` (kept as the two sizes) and the grid of
`size_y` rows, each of `size_x` optional rooms. -/
structure MapGridModule where
  size_x : Nat
  size_y : Nat
  map_grid : List (List (Option RoomPiece))
  deriving DecidableEq

/-- `MapGridModule.__init__(size_x, size_y)`: an all-`None` grid. -/
def MapGridModule.new (size_x size_y : Nat) : MapGridModule :=
  { size_x := size_x, size_y := size_y,
    map_grid := List.replicate size_y (List.replicate size_x none) }

/-- The `(y, x)` pairs visited by the two nested loops of
`add_to_first_empty_space`: `for y in range(size_y): for x in range(size_x)`,
i.e. row-major order. -/
def rowMajorIndices (size_x size_y : Nat) : List (Nat × Nat) :=
  (List.range size_y).flatMap fun y => (List.range size_x).map fun x => (y, x)

/-- Loop body of `add_to_first_empty_space` over the remaining `(y, x)`
pairs: reads `map_grid[y][x]`; on the first `None` cell writes the element
there and returns `True`; after the loop returns `False`. -/
def afesGo (element : RoomPiece) (grid : List (List (Option RoomPiece))) :
    List (Nat × Nat) → Except PyErr (List (List (Option RoomPiece)) × Bool)
  | [] => Except.ok (grid, false)
  | (y, x) :: rest =>
    match pyGet grid (y : Int) with
    | Except.error e => Except.error e
    | Except.ok row =>
      match pyGet row (x : Int) with
      | Except.error e => Except.error e
      | Except.ok (some _) => afesGo element grid rest
      | Except.ok none =>
        match pySet row (x : Int) (some element) with
        | Except.error e => Except.error e
        | Except.ok row2 =>
          match pySet grid (y : Int) row2 with
          | Except.error e => Except.error e
          | Except.ok grid2 => Except.ok (grid2, true)

/-- `MapGridModule.add_to_first_empty_space(element)`. -/
def MapGridModule.add_to_first_empty_space (m : MapGridModule) (element : RoomPiece) :
    Except PyErr (MapGridModule × Bool) :=
  match afesGo element m.map_grid (rowMajorIndices m.size_x m.size_y) with
  | Except.error e => Except.error e
  | Except.ok (g, placed) => Except.ok ({ m with map_grid := g }, placed)

/-- Fallback branch of `add_room` when the location is absent or invalid:
try `add_to_first_empty_space`; print the "grid full" message on failure. -/
def MapGridModule.addRoomFallback (m : MapGridModule) (room_piece : RoomPiece) :
    Except PyErr (MapGridModule × List String) :=
  match m.add_to_first_empty_space room_piece with
  | Except.error e => Except.error e
  | Except.ok (m2, true) => Except.ok (m2, [])
  | Except.ok (m2, false) =>
      Except.ok (m2, ["Currently there isn't any room available inside your grid. Please resize the grid to add more room."])

/-- `MapGridModule.add_room(room_piece, location)`: with a valid location,
reads `map_grid[location.y][location.x]`; if empty, writes the room there and
prints the "added" message, otherwise prints the "occupied" message; with no
or an invalid location, falls back to `add_to_first_empty_space`. -/
def MapGridModule.add_room (m : MapGridModule) (room_piece : RoomPiece)
    (location : Option MapGridModule.Vector) :
    Except PyErr (MapGridModule × List String) :=
  match location with
  | none => m.addRoomFallback room_piece
  | some loc =>
    match loc.x, loc.y with
    | some x, some y =>
      match pyGet m.map_grid y with
      | Except.error e => Except.error e
      | Except.ok row =>
        match pyGet row x with
        | Except.error e => Except.error e
        | Except.ok none =>
          match pySet row x (some room_piece) with
          | Except.error e => Except.error e
          | Except.ok row2 =>
            match pySet m.map_grid y row2 with
            | Except.error e => Except.error e
            | Except.ok grid2 =>
              Except.ok ({ m with map_grid := grid2 },
                ["Room '" ++ room_piece.attributes.name ++ "' added at (" ++
                  toString x ++ ", " ++ toString y ++ ")."])
        | Except.ok (some _) =>
          Except.ok (m,
            ["Location (" ++ toString x ++ ", " ++ toString y ++ ") is already occupied."])
    | _, _ => m.addRoomFallback room_piece

/-- `MapGridModule.remove_room(location)`: with a valid location and an
occupied cell, clears the cell and prints the "removed" message; otherwise a
silent no-op. -/
def MapGridModule.remove_room (m : MapGridModule)
    (location : Option MapGridModule.Vector) :
    Except PyErr (MapGridModule × List String) :=
  match location with
  | none => Except.ok (m, [])
  | some loc =>
    match loc.x, loc.y with
    | some x, some y =>
      match pyGet m.map_grid y with
      | Except.error e => Except.error e
      | Except.ok row =>
        match pyGet row x with
        | Except.error e => Except.error e
        | Except.ok (some room_piece) =>
          match pySet row x none with
          | Except.error e => Except.error e
          | Except.ok row2 =>
            match pySet m.map_grid y row2 with
            | Except.error e => Except.error e
            | Except.ok grid2 =>
              Except.ok ({ m with map_grid := grid2 },
                ["Room '" ++ room_piece.attributes.name ++ "' removed."])
        | Except.ok none => Except.ok (m, [])
    | _, _ => Except.ok (m, [])

/-- One cell of the grid dump: `room.name if room else "Empty"`.  A `None`
cell renders as `"Empty"`; an occupied cell reads `room.name`, an attribute
`RoomPiece` instances do not carry (see `RoomPiece.instanceAttrNames`), so
the access raises `AttributeError`. -/
def cellName : Option RoomPiece → Except PyErr String
  | none => Except.ok "Empty"
  | some room =>
      if RoomPiece.instanceAttrNames.contains "name" then
        Except.ok room.attributes.name
      else
        Except.error (PyErr.attributeError "RoomPiece" "name")

/-- One row of the grid dump: the cells joined by `" | "`.  The join
evaluates the generator, so a raising cell aborts the whole line. -/
def renderRow (row : List (Option RoomPiece)) : Except PyErr String :=
  match row.mapM cellName with
  | Except.error e => Except.error e
  | Except.ok cells => Except.ok (String.intercalate " | " cells)

/-- Remaining iterations of the row loop of `MapGridModule.execute`:
accumulates the lines printed so far and stops at the first raising row. -/
def renderRowsGo (acc : List String) :
    List (List (Option RoomPiece)) → List String × Option PyErr
  | [] => (acc, none)
  | row :: rest =>
    match renderRow row with
    | Except.ok s => renderRowsGo (acc ++ [s]) rest
    | Except.error e => (acc, some e)

/-- `MapGridModule.execute`: prints `"Map Grid:"` then one line per row;
returns the lines printed before any raise, and the raise itself if any. -/
def MapGridModule.executeOut (m : MapGridModule) : List String × Option PyErr :=
  renderRowsGo ["Map Grid:"] m.map_grid

/-- The two concrete module kinds the program ever registers. -/
inductive ModuleVal where
  | mapGrid (m : MapGridModule)
  | inputMap (im : InputMapModule)
  deriving DecidableEq

/-- `GameEngine` state, together with the console input stream it reads
(`stdin`, one pending line per entry). -/
structure GameEngine where
  modules : List ModuleVal
  running : Bool
  stdin : List String
  deriving DecidableEq

/-- `GameEngine.__init__`: no modules, `running = True`. -/
def GameEngine.new (stdin : List String) : GameEngine :=
  { modules := [], running := true, stdin := stdin }

/-- Dynamic (Python) values that can be handed to `add_module` and
`add_command`; `isinstance` dispatches on the constructor. -/
inductive PyVal where
  | module (m : ModuleVal)
  | command (c : Command)
  | str (s : String)
  | int (i : Int)
  | noneVal
  deriving DecidableEq

/-- `isinstance(v, Module)`: only `InputMapModule` and `MapGridModule`
extend `Module` (`Command` extends `Piece`, not `Module`). -/
def isinstanceModule : PyVal → Bool
  | PyVal.module _ => true
  | _ => false

/-- `isinstance(v, Command)`. -/
def isinstanceCommand : PyVal → Bool
  | PyVal.command _ => true
  | _ => false

/-- `GameEngine.add_module(module)`: appends on a `Module`, raises
`TypeError` otherwise (the raise happens before any append). -/
def GameEngine.add_module (e : GameEngine) (v : PyVal) : Except PyErr GameEngine :=
  match v with
  | PyVal.module m => Except.ok { e with modules := e.modules ++ [m] }
  | _ => Except.error (PyErr.typeError "Only instances of Module can be added as modules.")

/-- `InputMapModule.add_command(command)`: inserts/overwrites under the
command's trigger on a `Command`, raises `TypeError` otherwise. -/
def InputMapModule.add_command (im : InputMapModule) (v : PyVal) :
    Except PyErr InputMapModule :=
  match v with
  | PyVal.command c =>
      Except.ok { im with commands := dictInsert im.commands c.trigger c }
  | _ => Except.error (PyErr.typeError "Only instances of Command can be added as commands.")

/-- `QuitCommand.update`: prints the farewell and stops the engine.  (The
dispatch path never reaches it, because `process_command` calls `execute`.) -/
def QuitCommand.update (e : GameEngine) : GameEngine × List String :=
  ({ e with running := false }, ["Thank you for playing!"])

/-- One module's `execute` inside a tick: the map grid prints its dump; the
input map prints the prompt, consumes one stdin line (raising `EOFError` on
an exhausted stream, as `input()` does) and then raises on `handle_input`. -/
def ModuleVal.executeE : ModuleVal → GameEngine → GameEngine × List String × Option PyErr
  | ModuleVal.mapGrid m, e =>
      let r := m.executeOut
      (e, r.1, r.2)
  | ModuleVal.inputMap im, e =>
    match e.stdin with
    | [] => (e, [">: "], some PyErr.eofError)
    | line :: rest =>
      let r := im.executeLine line
      ({ e with stdin := rest }, r.1, r.2)

/-- Remaining iterations of the module loop of `update_modules`: each module
runs in order; the first raise aborts the remaining modules for the tick,
keeping the state mutations and output produced so far. -/
def updateModulesGo (e : GameEngine) (acc : List String) :
    List ModuleVal → GameEngine × List String × Option PyErr
  | [] => (e, acc, none)
  | m :: rest =>
    match m.executeE e with
    | (e1, out, none) => updateModulesGo e1 (acc ++ out) rest
    | (e1, out, some err) => (e1, acc ++ out, some err)

/-- `GameEngine.update_modules`. -/
def GameEngine.update_modules (e : GameEngine) :
    GameEngine × List String × Option PyErr :=
  updateModulesGo e [] e.modules

/-- `GameEngine.handle_error(message)`: prints the formatted message and
sets `running` to `False`. -/
def GameEngine.handle_error (e : GameEngine) (message : String) :
    GameEngine × List String :=
  ({ e with running := false }, ["An error occurred: " ++ message])

/-- The `while self.running` loop of `GameEngine.run`, with explicit fuel
(the loop itself has no bound; every theorem below fixes enough fuel).  Each
iteration wraps `update_modules` in the try/except boundary: an exception is
caught, passed to `handle_error`, and the loop re-checks `running`. -/
def GameEngine.runLoop : Nat → GameEngine → GameEngine × List String
  | 0, e => (e, [])
  | fuel + 1, e =>
    if e.running then
      match e.update_modules with
      | (e1, out, some err) =>
        let he := e1.handle_error (pyErrStr err)
        let rest := GameEngine.runLoop fuel he.1
        (rest.1, out ++ he.2 ++ rest.2)
      | (e1, out, none) =>
        let rest := GameEngine.runLoop fuel e1
        (rest.1, out ++ rest.2)
    else (e, [])

/-- `GameEngine.run`: prints the greeting, then the loop. -/
def GameEngine.run (fuel : Nat) (e : GameEngine) : GameEngine × List String :=
  let r := GameEngine.runLoop fuel e
  (r.1, "Game starting. Type 'quit' to exit." :: r.2)

/-- `room1` from `main`. -/
def room1 : RoomPiece :=
  { attributes := { name := "Lab 1", description := "A dark, spooky forest with tall trees." } }

/-- `room2` from `main`. -/
def room2 : RoomPiece :=
  { attributes := { name := "Lab 2", description := "A calm river flows here." } }

/-- The wiring of `main` before `engine.run()`: a 2×2 grid with `room1` at
(0,0) and `room2` at (1,0), then an input map holding the quit command.
Setup-time prints are discarded (the claims concern the run loop). -/
def mainSetup (stdin : List String) : Except PyErr GameEngine := do
  let engine := GameEngine.new stdin
  let map0 := MapGridModule.new 2 2
  let r1 ← map0.add_room room1 (some { x := some 0, y := some 0 })
  let r2 ← r1.1.add_room room2 (some { x := some 1, y := some 0 })
  let engine ← engine.add_module (PyVal.module (ModuleVal.mapGrid r2.1))
  let input0 : InputMapModule := { commands := [] }
  let input1 ← input0.add_command (PyVal.command quitCommand)
  let engine ← engine.add_module (PyVal.module (ModuleVal.inputMap input1))
  pure engine

/-- `main` end to end: wiring followed by `engine.run()`, against a given
console input stream. -/
def mainRun (stdin : List String) (fuel : Nat) :
    Except PyErr (GameEngine × List String) := do
  let engine ← mainSetup stdin
  pure (GameEngine.run fuel engine)

/-- The cell the grid stores at column `x` of row `y` (`none` when out of
range, `some c` with `c` the optional room otherwise). -/
def cellAt (m : MapGridModule) (x y : Nat) : Option (Option RoomPiece) :=
  (m.map_grid.get? y).bind fun row => row.get? x

/-- Shape invariant every grid built by `MapGridModule.__init__` satisfies
and every operation preserves: `size_y` rows, each of length `size_x`. -/
def MapGridModule.wf (m : MapGridModule) : Prop :=
  m.map_grid.length = m.size_y ∧ ∀ row ∈ m.map_grid, row.length = m.size_x

instance (m : MapGridModule) : Decidable m.wf := by
  unfold MapGridModule.wf
  exact instDecidableAnd

/-- Every in-range cell is occupied. -/
def gridFull (m : MapGridModule) : Prop :=
  ∀ y < m.size_y, ∀ x < m.size_x, cellAt m x y ≠ some none

instance (m : MapGridModule) : Decidable (gridFull m) := by
  unfold gridFull
  infer_instance

/-- The emptiness test the scan loop applies at a `(y, x)` pair. -/
def isEmptyCellB (grid : List (List (Option RoomPiece))) (p : Nat × Nat) : Bool :=
  decide (((grid.get? p.1).bind fun row => row.get? p.2) = some none)

/-- The first `(y, x)` pair, in row-major order, whose cell is empty. -/
def firstEmpty (m : MapGridModule) : Option (Nat × Nat) :=
  (rowMajorIndices m.size_x m.size_y).find? (isEmptyCellB m.map_grid)

/-- The grid with the cell at row `y`, column `x` replaced by `v`. -/
def setCellG (grid : List (List (Option RoomPiece))) (y x : Nat)
    (v : Option RoomPiece) : List (List (Option RoomPiece)) :=
  grid.set y (((grid.get? y).getD []).set x v)

/-- `setCellG` lifted to the module. -/
def setCell (m : MapGridModule) (y x : Nat) (v : Option RoomPiece) : MapGridModule :=
  { m with map_grid := setCellG m.map_grid y x v }

/-- A demo room used to exercise the grid operations on concrete inputs. -/
def roomA : RoomPiece := { attributes := { name := "Room A", description := "first demo room" } }

/-- A second demo room. -/
def roomB : RoomPiece := { attributes := { name := "Room B", description := "second demo room" } }

/-- A third demo room. -/
def roomC : RoomPiece := { attributes := { name := "Room C", description := "third demo room" } }

/-- A fourth demo room. -/
def roomD : RoomPiece := { attributes := { name := "Room D", description := "fourth demo room" } }

/-- Four successive unaddressed `add_room` calls on a fresh 2×2 grid (each
falls through to `add_to_first_empty_space`); the resulting grid exhibits
the deterministic row-major arrangement. -/
def fourRoomDemo : Except PyErr (List (List (Option RoomPiece))) := do
  let r1 ← (MapGridModule.new 2 2).add_room roomA none
  let r2 ← r1.1.add_room roomB none
  let r3 ← r2.1.add_room roomC none
  let r4 ← r3.1.add_room roomD none
  pure r4.1.map_grid

/-- A fully occupied 1×1 grid. -/
def gOne : MapGridModule := { size_x := 1, size_y := 1, map_grid := [[some roomA]] }

/-- A 2×2 grid with one room at (0, 0) and everything else empty. -/
def gTwo : MapGridModule :=
  { size_x := 2, size_y := 2, map_grid := [[some roomA, none], [none, none]] }

/-- An input map holding exactly the quit command. -/
def demoInputMap : InputMapModule := { commands := [("quit", quitCommand)] }

/-- An engine whose single module is the occupied 1×1 grid; its first tick
raises inside `MapGridModule.execute`. -/
def badEngine : GameEngine :=
  { modules := [ModuleVal.mapGrid gOne], running := true, stdin := [] }

theorem pyGet_natCast {α : Type} (l : List α) (n : Nat) :
    pyGet l (n : Int) = match l.get? n with
      | some a => Except.ok a
      | none => Except.error PyErr.indexError := by
  unfold pyGet
  have h0 : ¬ ((n : Int) < 0) := by omega
  simp [h0]

theorem pyGet_ok_of_get? {α : Type} {l : List α} {n : Nat} {a : α}
    (h : l.get? n = some a) : pyGet l (n : Int) = Except.ok a := by
  rw [pyGet_natCast, h]

theorem pySet_natCast {α : Type} (l : List α) (n : Nat) (a : α) :
    pySet l (n : Int) a =
      if n < l.length then Except.ok (l.set n a) else Except.error PyErr.indexError := by
  unfold pySet
  have h0 : ¬ ((n : Int) < 0) := by omega
  simp [h0]

theorem pySet_ok_of_lt {α : Type} {l : List α} {n : Nat} (a : α)
    (h : n < l.length) : pySet l (n : Int) a = Except.ok (l.set n a) := by
  rw [pySet_natCast, if_pos h]

theorem pyGet_pyWrap {α : Type} (l : List α) (i : Int)
    (h : -(l.length : Int) ≤ i) : pyGet l (pyWrap l.length i) = pyGet l i := by
  unfold pyGet pyWrap
  by_cases hi : i < 0
  · have hnn : ¬ (i + (l.length : Int) < 0) := by omega
    simp [hi, hnn]
  · simp [hi]

theorem pySet_pyWrap {α : Type} (l : List α) (i : Int) (a : α)
    (h : -(l.length : Int) ≤ i) : pySet l (pyWrap l.length i) a = pySet l i a := by
  unfold pySet pyWrap
  by_cases hi : i < 0
  · have hnn : ¬ (i + (l.length : Int) < 0) := by omega
    simp [hi, hnn]
  · simp [hi]

theorem list_set_get?_self {α : Type} : ∀ (l : List α) (n : Nat) (a : α),
    l.get? n = some a → l.set n a = l
  | [], _, _, h => by rw [List.get?_nil] at h; cases h
  | b :: l, 0, a, h => by
    rw [List.get?_cons_zero] at h
    cases h
    rfl
  | b :: l, n + 1, a, h => by
    rw [List.get?_cons_succ] at h
    show b :: l.set n a = b :: l
    rw [list_set_get?_self l n a h]

theorem mem_rowMajorIndices {size_x size_y y x : Nat} :
    (y, x) ∈ rowMajorIndices size_x size_y ↔ y < size_y ∧ x < size_x := by
  simp [rowMajorIndices, List.mem_flatMap, List.mem_map, List.mem_range]

theorem lt_length_of_get?_eq_some {α : Type} {l : List α} {n : Nat} {a : α}
    (h : l.get? n = some a) : n < l.length := by
  rw [List.get?_eq_getElem?] at h
  exact (List.getElem?_eq_some.mp h).1

theorem afesGo_spec (element : RoomPiece) (grid : List (List (Option RoomPiece)))
    (idxs : List (Nat × Nat))
    (hin : ∀ p ∈ idxs, ∃ row, grid.get? p.1 = some row ∧ p.2 < row.length) :
    afesGo element grid idxs =
      match idxs.find? (isEmptyCellB grid) with
      | none => Except.ok (grid, false)
      | some p => Except.ok (setCellG grid p.1 p.2 (some element), true) := by
  induction idxs with
  | nil => rfl
  | cons p rest ih =>
    obtain ⟨row, hrow, hxlt⟩ := hin p (List.mem_cons_self p rest)
    obtain ⟨y, x⟩ := p
    have hy : y < grid.length := lt_length_of_get?_eq_some hrow
    obtain ⟨c, hc⟩ : ∃ c, row.get? x = some c :=
      ⟨_, by rw [List.get?_eq_getElem?]; exact List.getElem?_eq_getElem hxlt⟩
    have hrowE : grid[y]? = some row := by
      rw [← List.get?_eq_getElem?]; exact hrow
    have hcE : row[x]? = some c := by
      rw [← List.get?_eq_getElem?]; exact hc
    have hgy : pyGet grid (y : Int) = Except.ok row := pyGet_ok_of_get? hrow
    have hgx : pyGet row (x : Int) = Except.ok c := pyGet_ok_of_get? hc
    cases c with
    | none =>
      have hpos : isEmptyCellB grid (y, x) = true := by
        simp [isEmptyCellB, hrowE, hcE]
      rw [List.find?_cons_of_pos _ hpos]
      simp only [afesGo, hgy, hgx, pySet_ok_of_lt _ hxlt, pySet_ok_of_lt _ hy,
        setCellG, hrow, Option.getD_some]
    | some r =>
      have hneg : ¬ isEmptyCellB grid (y, x) = true := by
        simp [isEmptyCellB, hrowE, hcE]
      rw [List.find?_cons_of_neg _ hneg]
      have hrec := ih (fun q hq => hin q (List.mem_cons_of_mem _ hq))
      simpa only [afesGo, hgy, hgx] using hrec

theorem add_to_first_empty_space_spec (m : MapGridModule) (e : RoomPiece)
    (hwf : m.wf) :
    m.add_to_first_empty_space e =
      match firstEmpty m with
      | none => Except.ok (m, false)
      | some p => Except.ok (setCell m p.1 p.2 (some e), true) := by
  have hin : ∀ p ∈ rowMajorIndices m.size_x m.size_y,
      ∃ row, m.map_grid.get? p.1 = some row ∧ p.2 < row.length := by
    rintro ⟨y, x⟩ hp
    rw [mem_rowMajorIndices] at hp
    have hy : y < m.map_grid.length := by rw [hwf.1]; exact hp.1
    obtain ⟨row, hrow⟩ : ∃ row, m.map_grid.get? y = some row :=
      ⟨_, by rw [List.get?_eq_getElem?]; exact List.getElem?_eq_getElem hy⟩
    refine ⟨row, hrow, ?_⟩
    have hmem : row ∈ m.map_grid := by
      rw [List.get?_eq_getElem?] at hrow
      exact List.getElem?_mem hrow
    rw [hwf.2 row hmem]
    exact hp.2
  unfold MapGridModule.add_to_first_empty_space
  rw [afesGo_spec e m.map_grid _ hin]
  unfold firstEmpty
  cases h : (rowMajorIndices m.size_x m.size_y).find? (isEmptyCellB m.map_grid) with
  | none => rfl
  | some p => rfl

theorem firstEmpty_eq_none_iff (m : MapGridModule) :
    firstEmpty m = none ↔ gridFull m := by
  unfold firstEmpty gridFull
  rw [List.find?_eq_none]
  constructor
  · intro h y hy x hx
    have := h (y, x) (mem_rowMajorIndices.mpr ⟨hy, hx⟩)
    simpa [isEmptyCellB, cellAt] using this
  · rintro h ⟨y, x⟩ hp
    rw [mem_rowMajorIndices] at hp
    simpa [isEmptyCellB, cellAt] using h y hp.1 x hp.2

theorem pyGet_cases {α : Type} (l : List α) (i : Int) :
    pyGet l i = Except.error PyErr.indexError ∨ ∃ a, pyGet l i = Except.ok a := by
  unfold pyGet
  by_cases h0 : 0 ≤ (if i < 0 then i + (l.length : Int) else i)
  · rw [if_pos h0]
    cases l.get? (if i < 0 then i + (l.length : Int) else i).toNat
    · left; rfl
    · right; exact ⟨_, rfl⟩
  · rw [if_neg h0]
    left; rfl

theorem pyGet_error_of_le {α : Type} (l : List α) (i : Int)
    (h : (l.length : Int) ≤ i) : pyGet l i = Except.error PyErr.indexError := by
  unfold pyGet
  have h1 : ¬ i < 0 := by omega
  have h2 : 0 ≤ i := by omega
  have h3 : l.get? i.toNat = none := by
    rw [List.get?_eq_getElem?]
    exact List.getElem?_eq_none (by omega)
  simp only [h1, if_false, h2, if_true, h3]

theorem pyGet_mem {α : Type} {l : List α} {i : Int} {a : α}
    (h : pyGet l i = Except.ok a) : a ∈ l := by
  unfold pyGet at h
  by_cases h0 : 0 ≤ (if i < 0 then i + (l.length : Int) else i)
  · rw [if_pos h0] at h
    cases hg : l.get? (if i < 0 then i + (l.length : Int) else i).toNat with
    | none => rw [hg] at h; cases h
    | some b => rw [hg] at h; cases h; exact List.get?_mem hg
  · rw [if_neg h0] at h
    cases h

theorem cellAt_eq_some {m : MapGridModule} {x y : Nat} {c : Option RoomPiece}
    (h : cellAt m x y = some c) :
    ∃ row, m.map_grid.get? y = some row ∧ row.get? x = some c := by
  unfold cellAt at h
  exact Option.bind_eq_some.mp h

/-- Claim C6: `InputMapModule.execute` normalizes the console line and then
delegates to a `handle_input` method that is defined nowhere in the
component, so every call fails with an attribute/method-not-found error at
runtime — it never reaches `process_command`: for every module state and
every input line the result is the `AttributeError`, with only the prompt
printed and no dispatch performed. -/
theorem inputMap_execute_always_raises (im : InputMapModule) (line : String) :
    im.executeLine line =
      ([">: "], some (PyErr.attributeError "InputMapModule" "handle_input")) := rfl

/-- Claim C1: dispatching a registered trigger should invoke that command's
effect exactly once, but the registry hit executes `command.execute()` — an
attribute no command class defines (the effect lives in `update`) — so the
dispatch raises `AttributeError` and the effect runs zero times; the miss
branch behaves as specified (prints the "cannot be understood" line, touches
no state).  Concretely, with the quit command registered under "quit",
`process_command "quit"` raises instead of quitting. -/
theorem process_command_hit_raises :
    (∀ (im : InputMapModule) (user_input : String),
        im.process_command user_input =
          match dictGet im.commands user_input with
          | some _ => ([], some (PyErr.attributeError "Command" "execute"))
          | none => (["This command cannot be understood."], none)) ∧
    demoInputMap.process_command "quit" =
      ([], some (PyErr.attributeError "Command" "execute")) ∧
    demoInputMap.process_command "north" =
      (["This command cannot be understood."], none) := by
  refine ⟨fun im u => ?_, rfl, rfl⟩
  unfold InputMapModule.process_command
  cases hq : dictGet im.commands u
  · rfl
  · rfl

/-- Claim C2: `MapGridModule.execute` should render every grid — room names
in occupied cells, "Empty" placeholders elsewhere — without raising, but the
cell expression reads `room.name`, an attribute `RoomPiece` instances do not
carry, so the dump raises `AttributeError` at the first occupied cell.  An
all-empty 2×2 grid does print the placeholder rows, while a 1×1 grid holding
one room (as placed by `add_room`) prints only the header and raises. -/
theorem mapGrid_execute_raises_on_room :
    (MapGridModule.new 2 2).executeOut =
      (["Map Grid:", "Empty | Empty", "Empty | Empty"], none) ∧
    (MapGridModule.new 1 1).add_room roomA none = Except.ok (gOne, []) ∧
    gOne.executeOut = (["Map Grid:"], some (PyErr.attributeError "RoomPiece" "name")) :=
  ⟨rfl, rfl, rfl⟩

/-- Claim C9: `add_module` given any value that is not a `Module` raises a
`TypeError` before appending anything, and `add_command` given any value
that is not a `Command` raises a `TypeError` before touching the registry
(the raise replaces the mutation: the caller's engine and module are the
unchanged originals). -/
theorem add_module_add_command_type_errors :
    (∀ (e : GameEngine) (v : PyVal), isinstanceModule v = false →
        e.add_module v =
          Except.error (PyErr.typeError "Only instances of Module can be added as modules.")) ∧
    (∀ (im : InputMapModule) (v : PyVal), isinstanceCommand v = false →
        im.add_command v =
          Except.error (PyErr.typeError "Only instances of Command can be added as commands.")) := by
  constructor
  · intro e v hv
    cases v with
    | module m => simp [isinstanceModule] at hv
    | command c => rfl
    | str s => rfl
    | int i => rfl
    | noneVal => rfl
  · intro im v hv
    cases v with
    | command c => simp [isinstanceCommand] at hv
    | module m => rfl
    | str s => rfl
    | int i => rfl
    | noneVal => rfl

theorem add_module_add_command_type_errors_witness :
    isinstanceModule (PyVal.str "junk") = false ∧
    (GameEngine.new []).add_module (PyVal.str "junk") =
      Except.error (PyErr.typeError "Only instances of Module can be added as modules.") ∧
    isinstanceCommand (PyVal.int 3) = false ∧
    demoInputMap.add_command (PyVal.int 3) =
      Except.error (PyErr.typeError "Only instances of Command can be added as commands.") :=
  ⟨rfl, add_module_add_command_type_errors.1 (GameEngine.new []) (PyVal.str "junk") rfl,
   rfl, add_module_add_command_type_errors.2 demoInputMap (PyVal.int 3) rfl⟩

/-- Claim C4: when `update_modules` raises during a tick of a running
engine, the per-iteration try/except of `run` catches it: `handle_error`
prints the formatted message and clears `running`, and the loop performs no
further ticks — the final state and output are independent of the remaining
fuel.  (`runLoop` is a total function into plain pairs, so no exception
raised inside `update_modules` ever escapes `run`.) -/
theorem run_catches_tick_exception (fuel : Nat) (e e1 : GameEngine)
    (out : List String) (err : PyErr)
    (hrun : e.running = true)
    (hupd : e.update_modules = (e1, out, some err)) :
    GameEngine.runLoop (fuel + 1) e =
      ({ e1 with running := false }, out ++ ["An error occurred: " ++ pyErrStr err]) := by
  have hstop : ∀ (f : Nat) (g : GameEngine), g.running = false →
      GameEngine.runLoop f g = (g, []) := by
    intro f g hg
    cases f with
    | zero => rfl
    | succ f => unfold GameEngine.runLoop; rw [hg]; simp
  unfold GameEngine.runLoop
  rw [hrun]
  simp only [if_true, hupd, GameEngine.handle_error]
  rw [hstop fuel _ rfl]
  simp

theorem run_catches_tick_exception_witness :
    badEngine.running = true ∧
    badEngine.update_modules =
      (badEngine, ["Map Grid:"], some (PyErr.attributeError "RoomPiece" "name")) ∧
    GameEngine.runLoop 4 badEngine =
      ({ badEngine with running := false },
       ["Map Grid:", "An error occurred: 'RoomPiece' object has no attribute 'name'"]) :=
  ⟨rfl, rfl,
   run_catches_tick_exception 3 badEngine badEngine ["Map Grid:"]
     (PyErr.attributeError "RoomPiece" "name") rfl rfl⟩

/-- Claim C5: with the engine wired by `main` (2×2 grid preloaded at (0,0)
and (1,0), input map with the quit command), supplying "quit" should stop
the loop via `QuitCommand`'s effect; in the code the very first tick raises
inside `MapGridModule.execute` (the `room.name` access), `handle_error`
halts the engine, and the line "quit" is never even read: the final state
still holds `stdin = ["quit"]`, the output carries the error line and no
farewell, and `running` is false through the error handler rather than
through the quit command. -/
theorem main_quit_never_reaches_quit_command :
    mainRun ["quit"] 10 =
      Except.ok
        ({ modules :=
            [ModuleVal.mapGrid
              { size_x := 2, size_y := 2,
                map_grid := [[some room1, some room2], [none, none]] },
             ModuleVal.inputMap { commands := [("quit", quitCommand)] }],
           running := false,
           stdin := ["quit"] },
         ["Game starting. Type 'quit' to exit.", "Map Grid:",
          "An error occurred: 'RoomPiece' object has no attribute 'name'"]) := rfl

/-- Claim C3: `add_to_first_empty_space` scans the cells in strict row-major
order — the pairs of `rowMajorIndices`, (0,0) before (1,0) before (0,1) —
places the element at the first empty cell found and returns true, and
returns false leaving the grid unchanged exactly when every in-range cell is
occupied; consequently four unaddressed adds on a fresh 2×2 grid produce the
deterministic arrangement rows `[A, B]` then `[C, D]` (i.e. cells (0,0),
(1,0), (0,1), (1,1) in that order). -/
theorem add_to_first_empty_space_row_major :
    (∀ (m : MapGridModule) (e : RoomPiece), m.wf →
        (m.add_to_first_empty_space e = Except.ok (m, false) ↔ gridFull m)) ∧
    (∀ (m : MapGridModule) (e : RoomPiece) (y x : Nat), m.wf →
        firstEmpty m = some (y, x) →
        m.add_to_first_empty_space e = Except.ok (setCell m y x (some e), true)) ∧
    (∀ m : MapGridModule, firstEmpty m = none ↔ gridFull m) ∧
    fourRoomDemo = Except.ok [[some roomA, some roomB], [some roomC, some roomD]] := by
  refine ⟨?_, ?_, firstEmpty_eq_none_iff, rfl⟩
  · intro m e hwf
    rw [add_to_first_empty_space_spec m e hwf]
    cases h : firstEmpty m with
    | none =>
      constructor
      · intro _; exact (firstEmpty_eq_none_iff m).mp h
      · intro _; rfl
    | some p =>
      constructor
      · intro heq
        simp at heq
      · intro hfull
        have hnone : firstEmpty m = none := (firstEmpty_eq_none_iff m).mpr hfull
        rw [h] at hnone
        cases hnone
  · intro m e y x hwf h
    rw [add_to_first_empty_space_spec m e hwf, h]

theorem add_to_first_empty_space_row_major_witness :
    gOne.wf ∧ gridFull gOne ∧
    gOne.add_to_first_empty_space roomB = Except.ok (gOne, false) ∧
    (MapGridModule.new 2 2).wf ∧ firstEmpty (MapGridModule.new 2 2) = some (0, 0) ∧
    (MapGridModule.new 2 2).add_to_first_empty_space roomA =
      Except.ok (setCell (MapGridModule.new 2 2) 0 0 (some roomA), true) :=
  ⟨by decide, by decide,
   (add_to_first_empty_space_row_major.1 gOne roomB (by decide)).mpr (by decide),
   by decide, by decide,
   add_to_first_empty_space_row_major.2.1 (MapGridModule.new 2 2) roomA 0 0
     (by decide) (by decide)⟩

/-- Claim C7: blocked grid mutations are non-raising no-ops: `add_room` at
an in-bounds occupied cell prints the "occupied" line, places nothing and
returns the grid unchanged; `remove_room` with a missing location, with an
invalid vector, or at an in-bounds empty cell returns the grid unchanged
with no output and no raise. -/
theorem blocked_mutations_no_ops :
    (∀ (m : MapGridModule) (room r : RoomPiece) (x y : Nat),
        cellAt m x y = some (some r) →
        m.add_room room (some { x := some (x : Int), y := some (y : Int) }) =
          Except.ok (m, ["Location (" ++ toString (x : Int) ++ ", " ++
            toString (y : Int) ++ ") is already occupied."])) ∧
    (∀ m : MapGridModule, m.remove_room none = Except.ok (m, [])) ∧
    (∀ (m : MapGridModule) (v : MapGridModule.Vector), v.is_valid = false →
        m.remove_room (some v) = Except.ok (m, [])) ∧
    (∀ (m : MapGridModule) (x y : Nat), cellAt m x y = some none →
        m.remove_room (some { x := some (x : Int), y := some (y : Int) }) =
          Except.ok (m, [])) := by
  refine ⟨?_, fun m => rfl, ?_, ?_⟩
  · intro m room r x y h
    obtain ⟨row, hrow, hcell⟩ := cellAt_eq_some h
    have hgy := pyGet_ok_of_get? hrow
    have hgx := pyGet_ok_of_get? hcell
    simp only [MapGridModule.add_room, hgy, hgx]
  · intro m v hv
    obtain ⟨vx, vy⟩ := v
    cases vx with
    | none => rfl
    | some a =>
      cases vy with
      | none => rfl
      | some b => simp [MapGridModule.Vector.is_valid] at hv
  · intro m x y h
    obtain ⟨row, hrow, hcell⟩ := cellAt_eq_some h
    have hgy := pyGet_ok_of_get? hrow
    have hgx := pyGet_ok_of_get? hcell
    simp only [MapGridModule.remove_room, hgy, hgx]

theorem blocked_mutations_no_ops_witness :
    cellAt gOne 0 0 = some (some roomA) ∧
    gOne.add_room roomB (some { x := some 0, y := some 0 }) =
      Except.ok (gOne, ["Location (0, 0) is already occupied."]) ∧
    gOne.remove_room none = Except.ok (gOne, []) ∧
    (MapGridModule.Vector.mk none (some 1)).is_valid = false ∧
    gOne.remove_room (some (MapGridModule.Vector.mk none (some 1))) = Except.ok (gOne, []) ∧
    cellAt gTwo 1 0 = some none ∧
    gTwo.remove_room (some { x := some 1, y := some 0 }) = Except.ok (gTwo, []) :=
  ⟨rfl,
   blocked_mutations_no_ops.1 gOne roomB roomA 0 0 rfl,
   blocked_mutations_no_ops.2.1 gOne,
   rfl,
   blocked_mutations_no_ops.2.2.1 gOne (MapGridModule.Vector.mk none (some 1)) rfl,
   rfl,
   blocked_mutations_no_ops.2.2.2 gTwo 1 0 rfl⟩

/-- Claim C8: round-trip — adding a room at an in-bounds empty cell (x, y)
and then removing it at (x, y) succeeds without raising, returns the cell to
empty and restores the whole grid, so the dump of the restored grid is
identical to the dump of the original. -/
theorem add_remove_round_trip (m : MapGridModule) (room : RoomPiece) (x y : Nat)
    (hempty : cellAt m x y = some none) :
    ∃ m1 out1 m2 out2,
      m.add_room room (some { x := some (x : Int), y := some (y : Int) }) =
        Except.ok (m1, out1) ∧
      m1.remove_room (some { x := some (x : Int), y := some (y : Int) }) =
        Except.ok (m2, out2) ∧
      m2 = m ∧ m2.executeOut = m.executeOut := by
  obtain ⟨row, hrow, hcell⟩ := cellAt_eq_some hempty
  have hxlt : x < row.length := lt_length_of_get?_eq_some hcell
  have hylt : y < m.map_grid.length := lt_length_of_get?_eq_some hrow
  have hgy := pyGet_ok_of_get? hrow
  have hgx := pyGet_ok_of_get? hcell
  have hadd : m.add_room room (some { x := some (x : Int), y := some (y : Int) }) =
      Except.ok ({ m with map_grid := m.map_grid.set y (row.set x (some room)) },
        ["Room '" ++ room.attributes.name ++ "' added at (" ++ toString (x : Int) ++
          ", " ++ toString (y : Int) ++ ")."]) := by
    simp only [MapGridModule.add_room, hgy, hgx, pySet_ok_of_lt _ hxlt, pySet_ok_of_lt _ hylt]
  have hrow1 : (m.map_grid.set y (row.set x (some room))).get? y =
      some (row.set x (some room)) := by
    rw [List.get?_eq_getElem?]
    exact List.getElem?_set_self hylt
  have hcell1 : (row.set x (some room)).get? x = some (some room) := by
    rw [List.get?_eq_getElem?]
    exact List.getElem?_set_self hxlt
  have hgy1 := pyGet_ok_of_get? hrow1
  have hgx1 := pyGet_ok_of_get? hcell1
  have hxlt1 : x < (row.set x (some room)).length := by
    rw [List.length_set]; exact hxlt
  have hylt1 : y < (m.map_grid.set y (row.set x (some room))).length := by
    rw [List.length_set]; exact hylt
  have hrset : (row.set x (some room)).set x none = row := by
    rw [List.set_set]; exact list_set_get?_self row x none hcell
  have hgset : (m.map_grid.set y (row.set x (some room))).set y row = m.map_grid := by
    rw [List.set_set]; exact list_set_get?_self m.map_grid y row hrow
  have hrem : ({ m with map_grid := m.map_grid.set y (row.set x (some room)) }
        : MapGridModule).remove_room
        (some { x := some (x : Int), y := some (y : Int) }) =
      Except.ok (m, ["Room '" ++ room.attributes.name ++ "' removed."]) := by
    simp only [MapGridModule.remove_room, hgy1, hgx1, pySet_ok_of_lt _ hxlt1,
      pySet_ok_of_lt _ hylt1, hrset, hgset]
  exact ⟨_, _, _, _, hadd, hrem, rfl, rfl⟩

theorem add_remove_round_trip_witness :
    cellAt gTwo 1 0 = some none ∧
    (∃ m1 out1 m2 out2,
      gTwo.add_room roomB (some { x := some 1, y := some 0 }) = Except.ok (m1, out1) ∧
      m1.remove_room (some { x := some 1, y := some 0 }) = Except.ok (m2, out2) ∧
      m2 = gTwo ∧ m2.executeOut = gTwo.executeOut) :=
  ⟨rfl, add_remove_round_trip gTwo roomB 1 0 rfl⟩

/-- Claim C10 (implicit): `Vector.is_valid` only checks that both
coordinates are non-None — no bounds check — so on a well-formed N×M grid,
`add_room`/`remove_room` with a valid location having x ≥ N or y ≥ M raise
an uncaught `IndexError`, while a valid location with a negative coordinate
(down to -N / -M) silently addresses the cell counted from the opposite
edge (`pyWrap`): `remove_room` behaves identically to the wrapped
non-negative location, and `add_room` produces the identical grid (only the
echoed coordinates in its message differ). -/
theorem vector_validity_unbounded :
    (∀ x y : Int, (MapGridModule.Vector.mk (some x) (some y)).is_valid = true) ∧
    (∀ (m : MapGridModule) (room : RoomPiece) (x y : Int), m.wf →
        ((m.size_x : Int) ≤ x ∨ (m.size_y : Int) ≤ y) →
        m.add_room room (some { x := some x, y := some y }) =
          Except.error PyErr.indexError ∧
        m.remove_room (some { x := some x, y := some y }) =
          Except.error PyErr.indexError) ∧
    (∀ (m : MapGridModule) (room : RoomPiece) (x y : Int), m.wf →
        -(m.size_x : Int) ≤ x → x < (m.size_x : Int) →
        -(m.size_y : Int) ≤ y → y < (m.size_y : Int) →
        m.remove_room (some { x := some x, y := some y }) =
          m.remove_room
            (some { x := some (pyWrap m.size_x x), y := some (pyWrap m.size_y y) }) ∧
        Except.map Prod.fst (m.add_room room (some { x := some x, y := some y })) =
          Except.map Prod.fst (m.add_room room
            (some { x := some (pyWrap m.size_x x), y := some (pyWrap m.size_y y) }))) := by
  refine ⟨fun x y => rfl, ?_, ?_⟩
  · intro m room x y hwf hor
    have herr : (pyGet m.map_grid y = Except.error PyErr.indexError) ∨
        (∃ row, pyGet m.map_grid y = Except.ok row ∧
          pyGet row x = Except.error PyErr.indexError) := by
      rcases hor with hx | hy
      · rcases pyGet_cases m.map_grid y with h | ⟨row, h⟩
        · exact Or.inl h
        · refine Or.inr ⟨row, h, ?_⟩
          have hlen : row.length = m.size_x := hwf.2 row (pyGet_mem h)
          exact pyGet_error_of_le row x (by rw [hlen]; exact hx)
      · exact Or.inl (pyGet_error_of_le m.map_grid y (by rw [hwf.1]; exact hy))
    constructor
    · rcases herr with h | ⟨row, hok, hx2⟩
      · simp only [MapGridModule.add_room, h]
      · simp only [MapGridModule.add_room, hok, hx2]
    · rcases herr with h | ⟨row, hok, hx2⟩
      · simp only [MapGridModule.remove_room, h]
      · simp only [MapGridModule.remove_room, hok, hx2]
  · intro m room x y hwf hx1 hx2 hy1 hy2
    have hgl : m.map_grid.length = m.size_y := hwf.1
    have ey : pyGet m.map_grid (pyWrap m.size_y y) = pyGet m.map_grid y := by
      rw [← hgl]
      exact pyGet_pyWrap m.map_grid y (by omega)
    constructor
    · simp only [MapGridModule.remove_room, ey]
      rcases pyGet_cases m.map_grid y with h | ⟨row, h⟩
      · simp only [h]
      · simp only [h]
        have hlen : row.length = m.size_x := hwf.2 row (pyGet_mem h)
        have ex : pyGet row (pyWrap m.size_x x) = pyGet row x := by
          rw [← hlen]
          exact pyGet_pyWrap row x (by omega)
        simp only [ex]
        rcases pyGet_cases row x with h2 | ⟨c, h2⟩
        · simp only [h2]
        · simp only [h2]
          cases c with
          | none => rfl
          | some r =>
            have sx : pySet row (pyWrap m.size_x x) none = pySet row x none := by
              rw [← hlen]
              exact pySet_pyWrap row x none (by omega)
            simp only [sx]
            cases hs : pySet row x none with
            | error e => rfl
            | ok row2 =>
              have sy : pySet m.map_grid (pyWrap m.size_y y) row2 =
                  pySet m.map_grid y row2 := by
                rw [← hgl]
                exact pySet_pyWrap m.map_grid y row2 (by omega)
              simp only [sy]
    · simp only [MapGridModule.add_room, ey]
      rcases pyGet_cases m.map_grid y with h | ⟨row, h⟩
      · simp only [h]
      · simp only [h]
        have hlen : row.length = m.size_x := hwf.2 row (pyGet_mem h)
        have ex : pyGet row (pyWrap m.size_x x) = pyGet row x := by
          rw [← hlen]
          exact pyGet_pyWrap row x (by omega)
        simp only [ex]
        rcases pyGet_cases row x with h2 | ⟨c, h2⟩
        · simp only [h2]
        · simp only [h2]
          cases c with
          | some r => rfl
          | none =>
            have sx : pySet row (pyWrap m.size_x x) (some room) =
                pySet row x (some room) := by
              rw [← hlen]
              exact pySet_pyWrap row x (some room) (by omega)
            simp only [sx]
            cases hs : pySet row x (some room) with
            | error e => rfl
            | ok row2 =>
              have sy : pySet m.map_grid (pyWrap m.size_y y) row2 =
                  pySet m.map_grid y row2 := by
                rw [← hgl]
                exact pySet_pyWrap m.map_grid y row2 (by omega)
              simp only [sy]
              cases hs2 : pySet m.map_grid y row2 with
              | error e => rfl
              | ok grid2 => rfl

theorem vector_validity_unbounded_witness :
    (MapGridModule.Vector.mk (some 5) (some 7)).is_valid = true ∧
    gTwo.wf ∧ ((gTwo.size_x : Int) ≤ 5 ∨ (gTwo.size_y : Int) ≤ 0) ∧
    gTwo.add_room roomB (some { x := some 5, y := some 0 }) =
      Except.error PyErr.indexError ∧
    gTwo.remove_room (some { x := some 5, y := some 0 }) =
      Except.error PyErr.indexError ∧
    gTwo.remove_room (some { x := some (-1), y := some 0 }) =
      gTwo.remove_room
        (some { x := some (pyWrap gTwo.size_x (-1)), y := some (pyWrap gTwo.size_y 0) }) ∧
    Except.map Prod.fst (gTwo.add_room roomB (some { x := some (-1), y := some 0 })) =
      Except.map Prod.fst (gTwo.add_room roomB
        (some { x := some (pyWrap gTwo.size_x (-1)), y := some (pyWrap gTwo.size_y 0) })) :=
  ⟨vector_validity_unbounded.1 5 7, by decide, Or.inl (by decide),
   (vector_validity_unbounded.2.1 gTwo roomB 5 0 (by decide) (Or.inl (by decide))).1,
   (vector_validity_unbounded.2.1 gTwo roomB 5 0 (by decide) (Or.inl (by decide))).2,
   (vector_validity_unbounded.2.2 gTwo roomB (-1) 0 (by decide) (by decide) (by decide)
     (by decide) (by decide)).1,
   (vector_validity_unbounded.2.2 gTwo roomB (-1) 0 (by decide) (by decide) (by decide)
     (by decide) (by decide)).2⟩
